import Mathlib

/-!
Verification of the contract-verifier backend's controller logic
(`src/controller.ts`) and its multisig message-validation protocol.

Shallow embedding conventions:
* A TON `Cell` is a tree of nodes, each holding a bit-packed payload and up
  to four child references.  We model the payload as a `List Nat` of the
  scalar fields stored in the cell (op codes, query ids, hashes, addresses,
  storage pointers), in the order they are stored, and the references as a
  `List Cell`.
* Strings that are only compared for equality (hashes, addresses, ipfs
  pointers, verifier ids) are modelled as `Nat`.  The compiler `error`
  message, whose JavaScript truthiness matters, is modelled as
  `Option (List Char)` so that the empty string is distinguishable from
  `null`/`undefined`.
* Cryptography follows the capability interface of spec section 9: a
  detached signature over a cell hash is the symbolic pair
  `(message hash, public key)` and verification checks both components.
* Async collaborator calls (ipfs storage, chain reader, compilers) are
  passed in as explicit function parameters; storage writes performed by
  `addSource` are returned as an explicit event list.
-/

/-- A node of the binary tree codec (TON cell): a bit-packed payload,
modelled as the list of scalar fields it stores, plus child references. -/
inductive Cell where
  | mk (bits : List Nat) (refs : List Cell)

def Cell.bits : Cell → List Nat
  | Cell.mk b _ => b

def Cell.refs : Cell → List Cell
  | Cell.mk _ r => r

/-- Injective encoding of a list of naturals, used by the Merkle hash. -/
def encNats : List Nat → Nat
  | [] => 0
  | n :: ns => Nat.pair n (encNats ns) + 1

mutual
/-- Deterministic Merkle-style content hash of a cell: a pure function of
its payload and the hashes of its children (models `Cell.hash`). -/
def Cell.hashN : Cell → Nat
  | Cell.mk bits refs => Nat.pair (encNats bits) (hashRefs refs)

def hashRefs : List Cell → Nat
  | [] => 0
  | c :: cs => Nat.pair (Cell.hashN c) (hashRefs cs) + 1
end

/-- Every failure kind a `propose`/`cosign` call can surface, one
constructor per `throw` site of the validation cascade and controller. -/
inductive SignErr where
  | invalidCell
  | invalidOperation
  | invalidVerifierBodyCell
  | invalidVerifierId
  | messageExpired
  | invalidSourcesRegistryAddress
  | invalidSourcesRegistryBodyCell
  | invalidDeploySourceOp
  | invalidSignatureCell
  | invalidSignature
  | notInMultisigConfig
  | selfSigned
  | duplicateSignature
  | tooManySignatures
  | quorumTooSmall
  | storageReadFailed
  | codeHashMismatch
  | invalidCompilationResult (r : Nat)
  | tooManyRefs
  deriving DecidableEq, Repr

/-- `addSignatureCell` from `src/controller.ts`: descend along the first
reference of each node; a node with a second reference is rejected; the
new signature cell is attached at the node with zero references. -/
def addSignatureCell : Cell → Cell → Except SignErr Cell
  | Cell.mk bits [], sigCell => .ok (Cell.mk bits [sigCell])
  | Cell.mk bits [child], sigCell =>
    match addSignatureCell child sigCell with
    | .error e => .error e
    | .ok r => .ok (Cell.mk bits [r])
  | Cell.mk _ (_ :: _ :: _), _ => .error .tooManyRefs

/-- A cell whose first-reference spine contains a node with a second child
reference (a malformed signature chain, not a simple list). -/
def hasBadSpine : Cell → Bool
  | Cell.mk _ [] => false
  | Cell.mk _ [c] => hasBadSpine c
  | Cell.mk _ (_ :: _ :: _) => true

/-- Written from the spec's words for the append operation (section 4.3):
locate the tail (the node with zero child refs) by recursive descent and
attach the new node there, leaving the prefix unchanged.  Compared against
`addSignatureCell`, which is translated from the source. -/
def appendAtTailSpec : Cell → Cell → Cell
  | Cell.mk bits [], s => Cell.mk bits [s]
  | Cell.mk bits (c :: _), s => Cell.mk bits [appendAtTailSpec c s]

/-- The payloads of the nodes along the first-reference spine of a cell,
head first. -/
def spineBits : Cell → List (List Nat)
  | Cell.mk bits [] => [bits]
  | Cell.mk bits (c :: _) => bits :: spineBits c

/-- Symbolic keypair (spec section 9 capability interface).  Possession of
the structure stands for possession of the Ed25519 secret key; `pub` is the
32-byte public key. -/
structure KeyPair where
  pub : Nat
  deriving DecidableEq, Repr

/-- Symbolic detached signature over a cell hash: determined by the signed
hash and the signer's public key. -/
def edSign (msgHash : Nat) (kp : KeyPair) : Nat × Nat := (msgHash, kp.pub)

/-- Symbolic signature verification: the signature must bind exactly the
claimed message hash and public key. -/
def edVerify (sig : Nat × Nat) (msgHash pk : Nat) : Bool :=
  sig.1 == msgHash && sig.2 == pk

/-- `signatureCell` from the cell builders: a signature node stores the
512-bit detached signature over the message hash followed by the signer's
256-bit public key, and no references. -/
def signatureCell (msg : Cell) (kp : KeyPair) : Cell :=
  Cell.mk [(edSign msg.hashN kp).1, (edSign msg.hashN kp).2, kp.pub] []

/-- The verifier-set configuration fetched live from the chain reader. -/
structure VerifierConfig where
  quorum : Nat
  verifiers : List Nat
  deriving DecidableEq, Repr

/-- Modelled from the spec: the per-node checks of the Multisig Validator
(`validate-message-cell.ts` is not under `src/`; spec section 4.3 lists the
checks and their order, and the controller tests pin that the self-signed
check precedes the signature-count check).  `seen` holds the public keys of
the nodes already walked. -/
def checkSigNode (cfg : VerifierConfig) (msgHash ownPub a b p : Nat)
    (seen : List Nat) : Except SignErr Unit :=
  if edVerify (a, b) msgHash p = false then .error .invalidSignature
  else if cfg.verifiers.contains p = false then .error .notInMultisigConfig
  else if p = ownPub then .error .selfSigned
  else if seen.contains p then .error .duplicateSignature
  else if cfg.quorum < seen.length + 2 then .error .tooManySignatures
  else .ok ()

/-- Modelled from the spec: the recursive walk of the Multisig Validator
over the signature chain (spec section 4.3).  A node must hold exactly a
signature plus a public key and carry at most one reference; the walked
count includes the cosigner's pending signature, so the count check trips
exactly when the chain already holds quorum-many signatures (pinned by the
controller tests "More signatures than need" and the three-party signing
scenario). -/
def walkChain (cfg : VerifierConfig) (msgHash ownPub : Nat) :
    Cell → List Nat → Except SignErr (List Nat)
  | Cell.mk [a, b, p] [], seen =>
    match checkSigNode cfg msgHash ownPub a b p seen with
    | .error e => .error e
    | .ok _ => .ok (seen ++ [p])
  | Cell.mk [a, b, p] [nx], seen =>
    match checkSigNode cfg msgHash ownPub a b p seen with
    | .error e => .error e
    | .ok _ => walkChain cfg msgHash ownPub nx (seen ++ [p])
  | _, _ => .error .invalidSignatureCell

/-- Modelled from the spec: the Multisig Validator entry point (spec
section 4.3): a quorum of at most one is rejected before any signature
node is inspected. -/
def validateSignatures (cfg : VerifierConfig) (msgHash ownPub : Nat)
    (head : Cell) : Except SignErr (List Nat) :=
  if cfg.quorum ≤ 1 then .error .quorumTooSmall
  else walkChain cfg msgHash ownPub head []

/-- Modelled from the spec: the forward-message operation code (the real
32-bit constant lives in the missing `cell-builders.ts`; no claim depends
on its value, which the tests only require to differ from 1). -/
def FORWARD_MESSAGE_OP : Nat := 2

/-- Modelled from the spec: the deploy-source operation code (see
`FORWARD_MESSAGE_OP`). -/
def DEPLOY_SOURCE_OP : Nat := 3

/-- The validated output of the message validator. -/
structure ValidatedMessage where
  ipfsPointer : Nat
  codeCellHash : Nat
  senderAddress : Nat
  queryId : Nat
  deriving DecidableEq, Repr

/-- Modelled from the spec: `validateMessageCell` (`validate-message-cell.ts`
is not under `src/`).  The envelope cascade follows spec section 4.2 and the
controller tests; the multisig walk over the second root reference runs
inside this function, before the controller touches storage or the
compiler, as pinned by the "Invalid signatures" controller tests, which
expect signature errors with no source record in storage. -/
def validateMessageCell (cell : Cell) (vSha registry ownPub now : Nat)
    (cfg : VerifierConfig) : Except SignErr ValidatedMessage :=
  match cell with
  | Cell.mk (op :: qid :: _) (body :: sigHead :: _) =>
    if op ≠ FORWARD_MESSAGE_OP then .error .invalidOperation
    else
      match body with
      | Cell.mk (vh :: expiresAt :: sender :: reg :: _) (deploy :: _) =>
        if vh ≠ vSha then .error .invalidVerifierId
        else if expiresAt ≤ now then .error .messageExpired
        else if reg ≠ registry then .error .invalidSourcesRegistryAddress
        else
          match deploy with
          | Cell.mk (dop :: _dqid :: dvh :: codeHash :: _) (ptrCell :: _) =>
            if dop ≠ DEPLOY_SOURCE_OP then .error .invalidDeploySourceOp
            else if dvh ≠ vSha then .error .invalidVerifierId
            else
              match validateSignatures cfg body.hashN ownPub sigHead with
              | .error e => .error e
              | .ok _ => .ok { ipfsPointer := ptrCell.bits.headD 0,
                               codeCellHash := codeHash,
                               senderAddress := sender,
                               queryId := qid }
          | _ => .error .invalidSourcesRegistryBodyCell
      | _ => .error .invalidVerifierBodyCell
  | _ => .error .invalidCell

/-- The compiler families served by the controller. -/
inductive Compiler where
  | func
  | fift
  | tact
  | tolk
  deriving DecidableEq, Repr

/-- Compiler settings as stored in a source record.  Only the command line
matters to the claims; the version field is carried along opaquely.  The
command line is a character list so that the leading-token stripping of
`Controller.sign` is modelled on real text. -/
structure CompilerSettings where
  funcVersion : Nat
  commandLine : Option (List Char)
  deriving DecidableEq, Repr

/-- One source entry: a content pointer plus a file name (both opaque). -/
structure SourceRef where
  url : Nat
  filename : Nat
  deriving DecidableEq, Repr

/-- The `SourceItem` JSON document stored in content-addressed storage. -/
structure SourceItem where
  compilerSettings : CompilerSettings
  compiler : Compiler
  hash : Nat
  verificationDate : Nat
  sources : List SourceRef
  knownContractAddress : Nat
  deriving DecidableEq, Repr

/-- The payload handed to a compiler collaborator's `verify`. -/
structure SourceVerifyPayload where
  sources : List SourceRef
  compiler : Compiler
  compilerSettings : CompilerSettings
  knownContractAddress : Nat
  knownContractHash : Nat
  senderAddress : Nat
  deriving DecidableEq, Repr

/-- Result kinds a compiler collaborator can return. -/
inductive CompileResultType where
  | similar
  | not_similar
  | compile_error
  | unknown_error
  deriving DecidableEq, Repr

/-- Numeric code of a compile result kind, used only to carry the failing
kind inside `SignErr.invalidCompilationResult` (the source string-appends
it to the thrown message). -/
def CompileResultType.code : CompileResultType → Nat
  | .similar => 0
  | .not_similar => 1
  | .compile_error => 2
  | .unknown_error => 3

/-- A compiler collaborator's result.  `error` keeps JavaScript string
semantics: `none` is `null`/`undefined`, `some []` the empty string. -/
structure CompileResult where
  result : CompileResultType
  error : Option (List Char)
  hash : Option Nat
  compilerSettings : CompilerSettings
  sources : List SourceRef
  deriving DecidableEq, Repr

/-- JavaScript truthiness of a nullable string: `null`/`undefined` and the
empty string are falsy, every other string truthy. -/
def jsTruthyStr : Option (List Char) → Bool
  | none => false
  | some [] => false
  | some (_ :: _) => true

/-- The `.replace(/^func/, "")` applied to the stored command line in
`Controller.sign`: an anchored replace that removes one leading `func`
token if present and changes nothing otherwise. -/
def stripLeadingFunc : List Char → List Char
  | 'f' :: 'u' :: 'n' :: 'c' :: rest => rest
  | s => s

/-- The replay payload `Controller.sign` builds from the fetched source
record (controller.ts lines 191-204): the stored compiler settings are
reused with the command line passed through `stripLeadingFunc`, for every
compiler family alike. -/
def sourceToVerify (json : SourceItem) (senderAddress : Nat) : SourceVerifyPayload :=
  { sources := json.sources
    compiler := json.compiler
    compilerSettings :=
      { funcVersion := json.compilerSettings.funcVersion
        commandLine := json.compilerSettings.commandLine.map stripLeadingFunc }
    knownContractAddress := json.knownContractAddress
    knownContractHash := json.hash
    senderAddress := senderAddress }

/-- Modelled from the spec: `cellToSign` from the missing
`cell-builders.ts`, following the SignedPayload/DeploySourcePayload layout
of spec section 3 and the cells built by the controller tests. -/
def cellToSign (senderAddress queryId codeHash ipfsLink registry vSha expiresAt : Nat) : Cell :=
  Cell.mk [vSha, expiresAt, senderAddress, registry]
    [Cell.mk [DEPLOY_SOURCE_OP, queryId, vSha, codeHash] [Cell.mk [ipfsLink] []]]

/-- Modelled from the spec: `verifierRegistryForwardMessage` from the
missing `cell-builders.ts`: the wire root carrying the payload and the
signature chain head as its two references. -/
def verifierRegistryForwardMessage (queryId : Nat) (msgToSign sigCell : Cell) : Cell :=
  Cell.mk [FORWARD_MESSAGE_OP, queryId] [msgToSign, sigCell]

/-- The controller's static configuration (verifier id hash, registry
address, keypair, reverification flag). -/
structure ControllerCfg where
  verifierSha : Nat
  sourcesRegistryAddress : Nat
  kp : KeyPair
  allowReverification : Bool

/-- The collaborators `Controller.sign` consults, passed explicitly:
the live verifier config from the chain reader, content storage (read plus
JSON parse of the source record), the compiler registry, and the clock. -/
structure SignDeps where
  verifierConfig : VerifierConfig
  storage : Nat → Option SourceItem
  compilerVerify : Compiler → SourceVerifyPayload → CompileResult
  now : Nat

/-- `Controller.sign` after the source record has been fetched
(controller.ts lines 170-219): code-hash comparison, recompilation, then
signing and appending to the signature chain. -/
def signAfterFetch (cfg : ControllerCfg) (deps : SignDeps) (cell : Cell)
    (v : ValidatedMessage) (json : SourceItem) : Except SignErr Cell :=
  if json.hash = v.codeCellHash then
    if (deps.compilerVerify json.compiler (sourceToVerify json v.senderAddress)).result
        = CompileResultType.similar then
      match addSignatureCell ((cell.refs.drop 1).headD (Cell.mk [] []))
          (signatureCell (cell.refs.headD (Cell.mk [] [])) cfg.kp) with
      | .error e => .error e
      | .ok updated =>
        .ok (Cell.mk cell.bits
          ((cell.refs.drop 2) ++ [cell.refs.headD (Cell.mk [] []), updated]))
    else .error (.invalidCompilationResult
      (deps.compilerVerify json.compiler (sourceToVerify json v.senderAddress)).result.code)
  else .error .codeHashMismatch

/-- `Controller.sign` after message validation (controller.ts lines
166-168): fetch the source record via the extracted content pointer. -/
def signAfterValidation (cfg : ControllerCfg) (deps : SignDeps) (cell : Cell)
    (v : ValidatedMessage) : Except SignErr Cell :=
  match deps.storage v.ipfsPointer with
  | none => .error .storageReadFailed
  | some json => signAfterFetch cfg deps cell v json

/-- `Controller.sign` (controller.ts lines 150-220): validate the message
cell (envelope plus multisig walk), fetch the source record, compare the
stored hash, recompile, then sign and append. -/
def Controller.sign (cfg : ControllerCfg) (deps : SignDeps) (cell : Cell) :
    Except SignErr Cell :=
  match validateMessageCell cell cfg.verifierSha cfg.sourcesRegistryAddress
      cfg.kp.pub deps.now deps.verifierConfig with
  | .error e => .error e
  | .ok v => signAfterValidation cfg deps cell v

/-- The collaborators `Controller.addSource` consults, passed explicitly:
the chain reader's already-deployed answer (`none` models `undefined`),
the two content-storage write operations as pure pointer-yielding
functions, the fresh random query id, and the hour-rounded timestamp. -/
structure AddSourceDeps where
  isProofDeployed : Option Bool
  writeFiles : List Nat → List Nat
  writeContent : SourceItem → Nat
  queryId : Nat
  nowHour : Nat
  expiresAt : Nat

/-- One storage write performed by `Controller.addSource`: the source-file
upload or the source-record JSON upload. -/
inductive WriteEvent where
  | files (names : List Nat)
  | content (item : SourceItem)
  deriving DecidableEq, Repr

/-- The value `Controller.addSource` returns: the compiler result always,
and on success also the raw signature, the storage pointer of the source
record, and the serialized forwarded message. -/
structure VerifyResult where
  compileResult : CompileResult
  sig : Option (Nat × Nat)
  ipfsLink : Option Nat
  msgCell : Option Cell

/-- The compile result `Controller.addSource` substitutes when the
contract is already attested (controller.ts lines 79-88). -/
def alreadyDeployedResult (cr : CompileResult) : CompileResult :=
  { result := .unknown_error
    error := some "Contract is already deployed".data
    hash := none
    compilerSettings := cr.compilerSettings
    sources := cr.sources }

/-- `Controller.addSource` (controller.ts lines 63-148), returning the
result together with the list of storage writes it performed.  The early
guard keeps JavaScript truthiness: `compileResult.error ||
compileResult.result !== "similar" || !compileResult.hash`. -/
def Controller.addSource (cfg : ControllerCfg) (deps : AddSourceDeps)
    (compilerVerify : SourceVerifyPayload → CompileResult)
    (payload : SourceVerifyPayload) : VerifyResult × List WriteEvent :=
  let compileResult := compilerVerify payload
  if jsTruthyStr compileResult.error = true ∨
      compileResult.result ≠ CompileResultType.similar ∨
      compileResult.hash = none then
    ({ compileResult := compileResult, sig := none, ipfsLink := none, msgCell := none }, [])
  else if cfg.allowReverification = false ∧ deps.isProofDeployed = some true then
    ({ compileResult := alreadyDeployedResult compileResult,
       sig := none, ipfsLink := none, msgCell := none }, [])
  else
    let names := compileResult.sources.map (fun s => s.filename)
    let fileLocators := deps.writeFiles names
    let sourceSpec : SourceItem :=
      { compilerSettings := compileResult.compilerSettings
        compiler := payload.compiler
        hash := compileResult.hash.getD 0
        verificationDate := deps.nowHour
        sources := (fileLocators.zip compileResult.sources).map
          (fun fs => { url := fs.1, filename := fs.2.filename })
        knownContractAddress := payload.knownContractAddress }
    let ipfsLink := deps.writeContent sourceSpec
    let msgToSign := cellToSign payload.senderAddress deps.queryId
      (compileResult.hash.getD 0) ipfsLink cfg.sourcesRegistryAddress
      cfg.verifierSha deps.expiresAt
    ({ compileResult := compileResult
       sig := some (edSign msgToSign.hashN cfg.kp)
       ipfsLink := some ipfsLink
       msgCell := some (verifierRegistryForwardMessage deps.queryId msgToSign
         (signatureCell msgToSign cfg.kp)) },
     [WriteEvent.files names, WriteEvent.content sourceSpec])

/-- The canonical honestly-signed signature chain over message hash `mh`
with signer keys `p :: ks`: exactly the chains whose every node passes the
symbolic signature check. -/
def mkChain (mh : Nat) : Nat → List Nat → Cell
  | p, [] => Cell.mk [mh, p, p] []
  | p, q :: rest => Cell.mk [mh, p, p] [mkChain mh q rest]

/-! Concrete fixtures used by witnesses and counterexamples.  The shared
scenario: verifier-id hash 7, registry address 9, sender address 11,
code hash 55, content pointer 77, clock at 100, message expiry 200,
verifier set public keys 20/30/40 with quorum 3, the running verifier
holding key 30, and the proposer having signed with key 20. -/

/-- Fixture: the signed payload (`cellToSign`) of the shared scenario. -/
def fxBody : Cell := cellToSign 11 0 55 77 9 7 200

/-- Fixture: the running verifier's controller configuration. -/
def fxCfg : ControllerCfg := ⟨7, 9, ⟨30⟩, false⟩

/-- Fixture: the live verifier-set configuration. -/
def fxVerifierCfg : VerifierConfig := ⟨3, [20, 30, 40]⟩

/-- Fixture: a stored source record whose hash matches the message. -/
def fxJsonGood : SourceItem := ⟨⟨4, none⟩, .func, 55, 0, [], 0⟩

/-- Fixture: a stored source record whose hash (56) does not match the
message's code hash (55). -/
def fxJsonBad : SourceItem := ⟨⟨4, none⟩, .func, 56, 0, [], 0⟩

/-- Fixture: content storage holding `j` at pointer 77. -/
def fxStorage (j : SourceItem) : Nat → Option SourceItem :=
  fun n => if n = 77 then some j else none

/-- Fixture: a compiler registry that reports a matching hash. -/
def fxCompilerOk : Compiler → SourceVerifyPayload → CompileResult :=
  fun _ _ => ⟨.similar, none, some 55, ⟨4, none⟩, []⟩

/-- Fixture: a compiler registry that reports a non-matching hash. -/
def fxCompilerBad : Compiler → SourceVerifyPayload → CompileResult :=
  fun _ _ => ⟨.not_similar, none, some 55, ⟨4, none⟩, []⟩

/-- Fixture: a forwarded message with the proposer's valid signature. -/
def fxCellValid : Cell := verifierRegistryForwardMessage 0 fxBody (signatureCell fxBody ⟨20⟩)

/-- Fixture: cosign collaborators whose stored record hash mismatches. -/
def c1deps : SignDeps := ⟨fxVerifierCfg, fxStorage fxJsonBad, fxCompilerOk, 100⟩

/-- Fixture: a forwarded message whose signature chain head is an empty
cell, an invalid signature node. -/
def c1cellInvalidChain : Cell := verifierRegistryForwardMessage 0 fxBody (Cell.mk [] [])

/-- Fixture: cosign collaborators with a matching stored record but a
compiler that reports a non-matching hash. -/
def c2deps : SignDeps := ⟨fxVerifierCfg, fxStorage fxJsonGood, fxCompilerBad, 100⟩

/-- Fixture: fully healthy cosign collaborators. -/
def c5deps : SignDeps := ⟨fxVerifierCfg, fxStorage fxJsonGood, fxCompilerOk, 100⟩

/-- Fixture: the message cell after the running verifier's successful
cosign of `fxCellValid`. -/
def c5out : Cell :=
  Cell.mk [FORWARD_MESSAGE_OP, 0]
    [fxBody, Cell.mk [fxBody.hashN, 20, 20] [Cell.mk [fxBody.hashN, 30, 30] []]]

/-- Fixture: a controller whose own key 10 already signed the chain. -/
def c8cfg : ControllerCfg := ⟨7, 9, ⟨10⟩, false⟩

/-- Fixture: quorum-2 verifier set containing keys 10 and 20. -/
def c8deps : SignDeps := ⟨⟨2, [10, 20]⟩, fun _ => none, fxCompilerOk, 100⟩

/-- Fixture: a quorum-full chain signed by keys 10 then 20. -/
def c8chain : Cell := Cell.mk [fxBody.hashN, 10, 10] [Cell.mk [fxBody.hashN, 20, 20] []]

/-- Fixture: the forwarded message carrying `c8chain`. -/
def c8cell : Cell := verifierRegistryForwardMessage 0 fxBody c8chain

/-- Fixture: propose collaborators with nothing deployed yet. -/
def fxAddDeps : AddSourceDeps := ⟨some false, fun l => l, fun _ => 77, 0, 1000, 200⟩

/-- Fixture: propose collaborators reporting the contract as already
attested. -/
def fxAddDepsDeployed : AddSourceDeps := ⟨some true, fun l => l, fun _ => 77, 0, 1000, 200⟩

/-- Fixture: a propose request for the shared scenario. -/
def fxPayload : SourceVerifyPayload := ⟨[], .func, ⟨4, none⟩, 5, 55, 11⟩

/-- Fixture: a compiler returning `not_similar`. -/
def c3cv : SourceVerifyPayload → CompileResult :=
  fun _ => ⟨.not_similar, none, some 55, ⟨4, none⟩, []⟩

/-- Fixture: a compiler returning `similar` with no error. -/
def c6cv : SourceVerifyPayload → CompileResult :=
  fun _ => ⟨.similar, none, some 55, ⟨4, none⟩, []⟩

/-- Fixture: a compiler returning `similar` with a non-null but empty
error string. -/
def c10cv : SourceVerifyPayload → CompileResult :=
  fun _ => ⟨.similar, some [], some 55, ⟨4, none⟩, []⟩

/-- Fixture: a compiler returning `similar` but a `null` hash. -/
def c10cvNoHash : SourceVerifyPayload → CompileResult :=
  fun _ => ⟨.similar, none, none, ⟨4, none⟩, []⟩

/-- Fixture: a two-node chain signed only by foreign keys 20 and 40. -/
def c4good : Cell := Cell.mk [1] [Cell.mk [2] []]

/-- Fixture: a malformed chain whose second node carries two references. -/
def c4bad : Cell := Cell.mk [1] [Cell.mk [2] [Cell.mk [3] [], Cell.mk [4] []]]

/-- Fixture: a fresh signature node to append. -/
def c4sig : Cell := Cell.mk [9] []

/-! Helper lemmas. -/

theorem addSignatureCell_ok_of_goodSpine : ∀ (n s : Cell), hasBadSpine n = false →
    addSignatureCell n s = .ok (appendAtTailSpec n s)
  | Cell.mk bits [], s, _ => by simp [addSignatureCell, appendAtTailSpec]
  | Cell.mk bits [c], s, h => by
    have ih := addSignatureCell_ok_of_goodSpine c s (by simpa [hasBadSpine] using h)
    simp [addSignatureCell, appendAtTailSpec, ih]
  | Cell.mk bits (a :: b :: r), s, h => by simp [hasBadSpine] at h

theorem addSignatureCell_err_of_badSpine : ∀ (n s : Cell), hasBadSpine n = true →
    addSignatureCell n s = .error .tooManyRefs
  | Cell.mk bits [], s, h => by simp [hasBadSpine] at h
  | Cell.mk bits [c], s, h => by
    have ih := addSignatureCell_err_of_badSpine c s (by simpa [hasBadSpine] using h)
    simp [addSignatureCell, ih]
  | Cell.mk bits (a :: b :: r), s, _ => by simp [addSignatureCell]

theorem addSignatureCell_ok_inv (n s r : Cell) (h : addSignatureCell n s = .ok r) :
    hasBadSpine n = false ∧ r = appendAtTailSpec n s := by
  cases hb : hasBadSpine n with
  | false =>
    refine ⟨rfl, ?_⟩
    have hok := addSignatureCell_ok_of_goodSpine n s hb
    rw [hok] at h
    exact (Except.ok.injEq _ _ ▸ h.symm)
  | true =>
    rw [addSignatureCell_err_of_badSpine n s hb] at h
    exact absurd h (by simp)

theorem spineBits_appendAtTail : ∀ (n s : Cell), hasBadSpine n = false →
    spineBits (appendAtTailSpec n s) = spineBits n ++ spineBits s
  | Cell.mk bits [], s, _ => by simp [appendAtTailSpec, spineBits]
  | Cell.mk bits [c], s, h => by
    have ih := spineBits_appendAtTail c s (by simpa [hasBadSpine] using h)
    simp [appendAtTailSpec, spineBits, ih]
  | Cell.mk bits (a :: b :: r), s, h => by simp [hasBadSpine] at h

/-- A signature node that carries a correct symbolic signature by a
configured foreign key not yet seen passes every per-node check except
possibly the count check. -/
theorem checkSigNode_pass (cfg : VerifierConfig) (mh own p : Nat) (seen : List Nat)
    (hpmem : p ∈ cfg.verifiers) (hpown : ¬ p = own) (hpseen : p ∉ seen) :
    checkSigNode cfg mh own mh p p seen =
      if cfg.quorum < seen.length + 2 then .error .tooManySignatures else .ok () := by
  simp [checkSigNode, edVerify, hpmem, hpown, hpseen]

/-- Closed form of the multisig walk over an honestly-signed chain of
distinct configured foreign keys: it fails `tooManySignatures` exactly
when the keys walked plus the pending signature exceed the quorum, and
returns all walked keys otherwise. -/
theorem walkChain_mkChain (cfg : VerifierConfig) (mh own : Nat) :
    ∀ (ks : List Nat) (p : Nat) (seen : List Nat),
    (∀ k, k ∈ p :: ks → k ∈ cfg.verifiers) →
    (seen ++ p :: ks).Nodup → own ∉ p :: ks →
    walkChain cfg mh own (mkChain mh p ks) seen =
      if cfg.quorum < seen.length + (p :: ks).length + 1 then .error .tooManySignatures
      else .ok (seen ++ p :: ks) := by
  intro ks
  induction ks with
  | nil =>
    intro p seen hmem hnd hown
    have hpmem : p ∈ cfg.verifiers := hmem p (by simp)
    have hpseen : p ∉ seen := fun hc => (List.nodup_append.mp hnd).2.2 hc (by simp)
    have hpown : ¬ p = own := fun hc => hown (by simp [hc])
    simp only [mkChain, walkChain]
    rw [checkSigNode_pass cfg mh own p seen hpmem hpown hpseen]
    by_cases hq : cfg.quorum < seen.length + 2
    · rw [if_pos hq, if_pos (by simp only [List.length_cons, List.length_nil]; omega)]
    · rw [if_neg hq, if_neg (by simp only [List.length_cons, List.length_nil]; omega)]
  | cons q rest ih =>
    intro p seen hmem hnd hown
    have hpmem : p ∈ cfg.verifiers := hmem p (by simp)
    have hpseen : p ∉ seen := fun hc => (List.nodup_append.mp hnd).2.2 hc (by simp)
    have hpown : ¬ p = own := fun hc => hown (by simp [hc])
    have hnd2 : ((seen ++ [p]) ++ q :: rest).Nodup := by
      simpa [List.append_assoc] using hnd
    have hmem2 : ∀ k, k ∈ q :: rest → k ∈ cfg.verifiers :=
      fun k hk => hmem k (by simp [hk])
    have hown2 : own ∉ q :: rest := fun hc => hown (by simp [hc])
    have ihq := ih q (seen ++ [p]) hmem2 hnd2 hown2
    simp only [mkChain, walkChain]
    rw [checkSigNode_pass cfg mh own p seen hpmem hpown hpseen]
    by_cases hq : cfg.quorum < seen.length + 2
    · rw [if_pos hq, if_pos (by simp only [List.length_cons]; omega)]
    · rw [if_neg hq]
      show walkChain cfg mh own (mkChain mh q rest) (seen ++ [p]) = _
      rw [ihq]
      by_cases hc : cfg.quorum < seen.length + rest.length + 3
      · rw [if_pos (by simp only [List.length_append, List.length_cons, List.length_nil]; omega),
          if_pos (by simp only [List.length_cons]; omega)]
      · rw [if_neg (by simp only [List.length_append, List.length_cons, List.length_nil]; omega),
          if_neg (by simp only [List.length_cons]; omega)]
        simp [List.append_assoc]

/-! Claim theorems. -/

/-- Claim C4: the signature-chain append operation descends recursively to
the tail node (zero child references) and attaches the new node there,
leaving the prefix unchanged (it equals the spec-worded recursive
append), and it fails with `tooManyRefs` exactly if some visited node
carries a second child reference beyond the one being followed. -/
theorem claimC4 (n s : Cell) :
    (hasBadSpine n = false → addSignatureCell n s = .ok (appendAtTailSpec n s)) ∧
    (hasBadSpine n = true → addSignatureCell n s = .error .tooManyRefs) :=
  ⟨addSignatureCell_ok_of_goodSpine n s, addSignatureCell_err_of_badSpine n s⟩

/-- Witness for claim C4 at a two-node well-formed chain and at a chain
whose second node carries two references. -/
theorem claimC4_witness :
    addSignatureCell c4good c4sig = .ok (appendAtTailSpec c4good c4sig) ∧
    addSignatureCell c4bad c4sig = .error .tooManyRefs :=
  ⟨(claimC4 c4good c4sig).1 rfl, (claimC4 c4bad c4sig).2 rfl⟩

/-- Claim C7: with a configured quorum of at most 1, the multisig
validator fails `quorumTooSmall` for every message hash, every running
verifier and every signature chain whatsoever — no signature node is
inspected. -/
theorem claimC7 (cfg : VerifierConfig) (mh own : Nat) (head : Cell)
    (h : cfg.quorum ≤ 1) :
    validateSignatures cfg mh own head = .error .quorumTooSmall := by
  simp [validateSignatures, h]

/-- Witness for claim C7: quorum 1 with an arbitrary chain cell. -/
theorem claimC7_witness :
    validateSignatures ⟨1, [5]⟩ 3 4 (Cell.mk [] []) = .error .quorumTooSmall :=
  claimC7 ⟨1, [5]⟩ 3 4 (Cell.mk [] []) (by decide)

/-- Claim C9: the replay payload built during cosign reuses the stored
compiler settings with the command line passed through the anchored
`func`-stripping replace, and that replace removes exactly a leading
`func` token: the other compiler families' name tokens (`fift`, `tact`,
`tolk`) are left untouched. -/
theorem claimC9 (json : SourceItem) (sender : Nat) :
    (sourceToVerify json sender).compilerSettings.commandLine
      = json.compilerSettings.commandLine.map stripLeadingFunc ∧
    (∀ r, stripLeadingFunc ('f' :: 'u' :: 'n' :: 'c' :: r) = r) ∧
    (∀ r, stripLeadingFunc ('f' :: 'i' :: 'f' :: 't' :: r) = 'f' :: 'i' :: 'f' :: 't' :: r) ∧
    (∀ r, stripLeadingFunc ('t' :: 'a' :: 'c' :: 't' :: r) = 't' :: 'a' :: 'c' :: 't' :: r) ∧
    (∀ r, stripLeadingFunc ('t' :: 'o' :: 'l' :: 'k' :: r) = 't' :: 'o' :: 'l' :: 'k' :: r) :=
  ⟨rfl, fun _ => rfl, fun _ => rfl, fun _ => rfl, fun _ => rfl⟩

/-- Claim C3: when the compiler collaborator's result is not `similar`,
`addSource` returns exactly the compiler result with no signature, no
storage pointer and no message, and performs no storage writes. -/
theorem claimC3 (cfg : ControllerCfg) (deps : AddSourceDeps)
    (compilerVerify : SourceVerifyPayload → CompileResult) (payload : SourceVerifyPayload)
    (h : (compilerVerify payload).result ≠ CompileResultType.similar) :
    Controller.addSource cfg deps compilerVerify payload =
      ({ compileResult := compilerVerify payload,
         sig := none, ipfsLink := none, msgCell := none }, []) := by
  unfold Controller.addSource
  rw [if_pos (Or.inr (Or.inl h))]

/-- Witness for claim C3: a `not_similar` compiler result. -/
theorem claimC3_witness :
    Controller.addSource fxCfg fxAddDeps c3cv fxPayload =
      ({ compileResult := c3cv fxPayload,
         sig := none, ipfsLink := none, msgCell := none }, []) :=
  claimC3 fxCfg fxAddDeps c3cv fxPayload (by decide)

/-- Claim C6: with reverification not allowed and the chain reader
reporting the contract hash as already attested, `addSource` returns the
already-deployed result with no signature, no storage pointer and no
message, and performs no storage writes. -/
theorem claimC6 (cfg : ControllerCfg) (deps : AddSourceDeps)
    (compilerVerify : SourceVerifyPayload → CompileResult) (payload : SourceVerifyPayload)
    (h1 : (compilerVerify payload).result = CompileResultType.similar)
    (h2 : jsTruthyStr (compilerVerify payload).error = false)
    (h3 : (compilerVerify payload).hash ≠ none)
    (h4 : cfg.allowReverification = false)
    (h5 : deps.isProofDeployed = some true) :
    Controller.addSource cfg deps compilerVerify payload =
      ({ compileResult := alreadyDeployedResult (compilerVerify payload),
         sig := none, ipfsLink := none, msgCell := none }, []) := by
  unfold Controller.addSource
  rw [if_neg (by simp [h1, h2, h3]), if_pos ⟨h4, h5⟩]

/-- Witness for claim C6: a clean `similar` compile against an
already-attested contract hash. -/
theorem claimC6_witness :
    Controller.addSource fxCfg fxAddDepsDeployed c6cv fxPayload =
      ({ compileResult := alreadyDeployedResult (c6cv fxPayload),
         sig := none, ipfsLink := none, msgCell := none }, []) :=
  claimC6 fxCfg fxAddDepsDeployed c6cv fxPayload (by decide) (by decide) (by decide) rfl rfl

/-- Claim C10 (corrected): the inert early return of `addSource` also
fires, even for a `similar` result, when the error field is truthy (a
non-null, non-empty string) or the hash is missing (`null`/`undefined`);
a non-null but empty error string does not fire it (see the
counterexample). -/
theorem claimC10_amended (cfg : ControllerCfg) (deps : AddSourceDeps)
    (compilerVerify : SourceVerifyPayload → CompileResult) (payload : SourceVerifyPayload)
    (h : jsTruthyStr (compilerVerify payload).error = true ∨
      (compilerVerify payload).hash = none) :
    Controller.addSource cfg deps compilerVerify payload =
      ({ compileResult := compilerVerify payload,
         sig := none, ipfsLink := none, msgCell := none }, []) := by
  unfold Controller.addSource
  rcases h with h | h
  · rw [if_pos (Or.inl h)]
  · rw [if_pos (Or.inr (Or.inr h))]

/-- Witness for the amended claim C10: a `similar` result with a missing
hash is returned inert. -/
theorem claimC10_witness :
    Controller.addSource fxCfg fxAddDeps c10cvNoHash fxPayload =
      ({ compileResult := c10cvNoHash fxPayload,
         sig := none, ipfsLink := none, msgCell := none }, []) :=
  claimC10_amended fxCfg fxAddDeps c10cvNoHash fxPayload (Or.inr rfl)

/-- Counterexample to claim C10 as stated: a compiler result that is
`similar` with a non-null (but empty) error string and a present hash is
not returned inert — the guard tests JavaScript truthiness, not nullness,
so `addSource` goes on to produce a signature and two storage writes. -/
theorem claimC10_counterexample :
    (c10cv fxPayload).error ≠ none ∧
    (c10cv fxPayload).result = CompileResultType.similar ∧
    (Controller.addSource fxCfg fxAddDeps c10cv fxPayload).1.sig ≠ none ∧
    (Controller.addSource fxCfg fxAddDeps c10cv fxPayload).2 ≠ [] :=
  ⟨by decide, by decide, by decide, by decide⟩

/-- Claim C1 (corrected): in cosign, message validation — which includes
the cryptographic check of the whole existing signature chain — runs
before the source record is fetched and before any recompilation, so a
validation failure preempts `codeHashMismatch`; when validation succeeds,
a stored-hash/declared-hash mismatch fails `codeHashMismatch` before the
compiler is consulted, for every compiler collaborator behavior. -/
theorem claimC1_amended (cfg : ControllerCfg) (deps : SignDeps) (cell : Cell) :
    (∀ e, validateMessageCell cell cfg.verifierSha cfg.sourcesRegistryAddress
        cfg.kp.pub deps.now deps.verifierConfig = .error e →
      Controller.sign cfg deps cell = .error e) ∧
    (∀ v json, validateMessageCell cell cfg.verifierSha cfg.sourcesRegistryAddress
        cfg.kp.pub deps.now deps.verifierConfig = .ok v →
      deps.storage v.ipfsPointer = some json →
      json.hash ≠ v.codeCellHash →
      Controller.sign cfg deps cell = .error .codeHashMismatch) := by
  constructor
  · intro e he
    unfold Controller.sign
    rw [he]
  · intro v json hv hs hneq
    unfold Controller.sign
    rw [hv]
    show signAfterValidation cfg deps cell v = _
    unfold signAfterValidation
    rw [hs]
    show signAfterFetch cfg deps cell v json = _
    unfold signAfterFetch
    rw [if_neg hneq]

/-- Witness for the amended claim C1: an invalid chain head preempts the
hash mismatch, and with a valid chain the same mismatched record fails
`codeHashMismatch`. -/
theorem claimC1_witness :
    Controller.sign fxCfg c1deps c1cellInvalidChain = .error .invalidSignatureCell ∧
    Controller.sign fxCfg c1deps fxCellValid = .error .codeHashMismatch :=
  ⟨(claimC1_amended fxCfg c1deps c1cellInvalidChain).1 SignErr.invalidSignatureCell rfl,
   (claimC1_amended fxCfg c1deps fxCellValid).2 ⟨77, 55, 11, 0⟩ fxJsonBad rfl rfl (by decide)⟩

/-- Counterexample to claim C1 as stated: a message whose stored source
record hash (56) differs from the declared code hash (55) but whose
signature chain head is invalid fails with the signature error, not with
`codeHashMismatch` — the failure is not independent of chain validity,
because the chain is checked first. -/
theorem claimC1_counterexample :
    Controller.sign fxCfg c1deps c1cellInvalidChain = .error .invalidSignatureCell ∧
    SignErr.invalidSignatureCell ≠ SignErr.codeHashMismatch :=
  ⟨rfl, by decide⟩

/-- Claim C2: once cosign's message validation has succeeded and the
source record has been fetched, a record hash differing from the
validated code hash fails `codeHashMismatch`, and a matching record whose
recompilation is not `similar` fails `invalidCompilationResult`; both are
errors, so no new signature is produced. -/
theorem claimC2 (cfg : ControllerCfg) (deps : SignDeps) (cell : Cell)
    (v : ValidatedMessage) (json : SourceItem)
    (hv : validateMessageCell cell cfg.verifierSha cfg.sourcesRegistryAddress
      cfg.kp.pub deps.now deps.verifierConfig = .ok v)
    (hs : deps.storage v.ipfsPointer = some json) :
    (json.hash ≠ v.codeCellHash →
      Controller.sign cfg deps cell = .error .codeHashMismatch) ∧
    (json.hash = v.codeCellHash →
      (deps.compilerVerify json.compiler (sourceToVerify json v.senderAddress)).result
        ≠ CompileResultType.similar →
      Controller.sign cfg deps cell = .error (.invalidCompilationResult
        (deps.compilerVerify json.compiler (sourceToVerify json v.senderAddress)).result.code)) := by
  constructor
  · intro hneq
    unfold Controller.sign
    rw [hv]
    show signAfterValidation cfg deps cell v = _
    unfold signAfterValidation
    rw [hs]
    show signAfterFetch cfg deps cell v json = _
    unfold signAfterFetch
    rw [if_neg hneq]
  · intro heq hcr
    unfold Controller.sign
    rw [hv]
    show signAfterValidation cfg deps cell v = _
    unfold signAfterValidation
    rw [hs]
    show signAfterFetch cfg deps cell v json = _
    unfold signAfterFetch
    rw [if_pos heq, if_neg hcr]

/-- Witness for claim C2: a matching stored record whose recompilation
returns `not_similar`. -/
theorem claimC2_witness :
    Controller.sign fxCfg c2deps fxCellValid =
      .error (.invalidCompilationResult CompileResultType.not_similar.code) :=
  (claimC2 fxCfg c2deps fxCellValid ⟨77, 55, 11, 0⟩ fxJsonGood rfl rfl).2 rfl (by decide)

/-- Claim C8 (corrected): the multisig walk counts the walked signature
nodes plus the cosigner's pending signature and fails
`tooManySignatures` when that count exceeds the quorum — equivalently,
when the chain already holds quorum-many signatures.  For a quorum-full
chain of valid, distinct, configured signers, a cosign attempt by a party
whose key is not in the chain fails `tooManySignatures` (a party already
in the chain fails `selfSigned` first; see the counterexample). -/
theorem claimC8 (cfg : VerifierConfig) (mh own p : Nat) (ks : List Nat)
    (hmem : ∀ k, k ∈ p :: ks → k ∈ cfg.verifiers)
    (hnd : (p :: ks).Nodup)
    (hown : own ∉ p :: ks)
    (h2 : 2 ≤ cfg.quorum)
    (hq : cfg.quorum ≤ (p :: ks).length) :
    validateSignatures cfg mh own (mkChain mh p ks) = .error .tooManySignatures := by
  unfold validateSignatures
  rw [if_neg (by omega),
    walkChain_mkChain cfg mh own ks p [] hmem (by simpa using hnd) hown,
    if_pos (by simp only [List.length_nil, List.length_cons] at *; omega)]

/-- Witness for the amended claim C8: quorum 2, a chain signed by keys 10
and 20, and a cosigner holding key 30. -/
theorem claimC8_witness :
    validateSignatures ⟨2, [10, 20, 30]⟩ 5 30 (mkChain 5 10 [20]) =
      .error .tooManySignatures :=
  claimC8 ⟨2, [10, 20, 30]⟩ 5 30 10 [20]
    (by decide) (by decide) (by decide) (by decide) (by decide)

/-- Counterexample to claim C8 as stated: with quorum 2 and a quorum-full
valid chain signed by keys 10 and 20, a further cosign attempt by the
party holding key 10 fails `selfSigned`, not `tooManySignatures` — the
"any party" half of the claim fails for parties already in the chain. -/
theorem claimC8_counterexample :
    Controller.sign c8cfg c8deps c8cell = .error .selfSigned ∧
    SignErr.selfSigned ≠ SignErr.tooManySignatures :=
  ⟨rfl, by decide⟩

/-- Decomposition of a successful cosign of a two-reference root: the
output keeps the root payload, keeps the first reference, and replaces
the second by the successfully appended chain. -/
theorem sign_ok_body (cfg : ControllerCfg) (deps : SignDeps) (bits0 : List Nat)
    (body head out : Cell)
    (h : Controller.sign cfg deps (Cell.mk bits0 [body, head]) = .ok out) :
    ∃ updated, addSignatureCell head (signatureCell body cfg.kp) = .ok updated ∧
      out = Cell.mk bits0 [body, updated] := by
  unfold Controller.sign signAfterValidation signAfterFetch at h
  split at h
  · exact absurd h (by simp)
  · split at h
    · exact absurd h (by simp)
    · split at h
      · split at h
        · split at h
          · exact absurd h (by simp)
          · rename_i updated hadd
            refine ⟨updated, hadd, ?_⟩
            injection h with h2
            exact h2.symm
        · exact absurd h (by simp)
      · exact absurd h (by simp)

/-- Claim C5: a successful cosign leaves the payload subtree untouched —
the first reference and hence its content hash are unchanged — and the
new signature chain consists of the old chain's node payloads, every
prior signature and public key in original order, followed by exactly one
new node, this verifier's signature cell over the payload. -/
theorem claimC5 (cfg : ControllerCfg) (deps : SignDeps) (bits0 : List Nat)
    (body head out : Cell)
    (h : Controller.sign cfg deps (Cell.mk bits0 [body, head]) = .ok out) :
    out.bits = bits0 ∧
    ∃ nc, out.refs = [body, nc] ∧
      (out.refs.headD (Cell.mk [] [])).hashN = body.hashN ∧
      spineBits nc = spineBits head ++ [(signatureCell body cfg.kp).bits] ∧
      (spineBits nc).length = (spineBits head).length + 1 := by
  obtain ⟨updated, hadd, hout⟩ := sign_ok_body cfg deps bits0 body head out h
  obtain ⟨hgood, hupd⟩ :=
    addSignatureCell_ok_inv head (signatureCell body cfg.kp) updated hadd
  subst hupd
  subst hout
  refine ⟨rfl, appendAtTailSpec head (signatureCell body cfg.kp), rfl, rfl, ?_, ?_⟩
  · rw [spineBits_appendAtTail head (signatureCell body cfg.kp) hgood]
    rfl
  · rw [spineBits_appendAtTail head (signatureCell body cfg.kp) hgood]
    simp [signatureCell, spineBits]

/-- Witness for claim C5: the running verifier (key 30) cosigns the
proposer's (key 20) one-signature message of the shared scenario. -/
theorem claimC5_witness :
    c5out.bits = [FORWARD_MESSAGE_OP, 0] ∧
    ∃ nc, c5out.refs = [fxBody, nc] ∧
      (c5out.refs.headD (Cell.mk [] [])).hashN = fxBody.hashN ∧
      spineBits nc = spineBits (signatureCell fxBody ⟨20⟩) ++
        [(signatureCell fxBody fxCfg.kp).bits] ∧
      (spineBits nc).length = (spineBits (signatureCell fxBody ⟨20⟩)).length + 1 :=
  claimC5 fxCfg c5deps [FORWARD_MESSAGE_OP, 0] fxBody (signatureCell fxBody ⟨20⟩) c5out rfl
